import Mathlib

/-!
Shallow embedding of the patient-analytics dashboard page
(`src/app/page.tsx`): the `DashboardData` payload, the chart-data
transformers (`genderData`, `ageData`, `ethnicityData`, `prescriberData`,
`contactData`), the derived percentage strings (`femalePercent`,
`malePercent`, `contactRate`, the aging-population and no-contact
insights), and theorems settling the specification's claims about them.

JavaScript objects whose keys are data-dependent category labels are
embedded as ordered association lists `List (String × Nat)` (mapping
order = insertion order, which is what `Object.entries` iterates).
JavaScript numbers are embedded as `JsNum`: an exact rational for the
finite case plus the non-finite values `posInf`, `negInf`, `nan`, so that
division by zero and missing-key arithmetic are total and observable.
-/

/-- The fixed contact-availability record of the payload: exactly three
named counts, as in the `contactAvailability` field of `DashboardData`. -/
structure ContactAvailability where
  homePhone : Nat
  mobilePhone : Nat
  noContact : Nat
deriving DecidableEq

/-- The `DashboardData` payload: `totalPatients` plus five ordered
category-count mappings and the fixed contact record. -/
structure DashboardData where
  totalPatients : Nat
  genderDistribution : List (String × Nat)
  ethnicityDistribution : List (String × Nat)
  ageGroups : List (String × Nat)
  prescriberStats : List (String × Nat)
  surgeryStats : List (String × Nat)
  contactAvailability : ContactAvailability
deriving DecidableEq

namespace COLORS

/-- Hex value of `COLORS.cyan` in the source palette object. -/
def cyan : String := "#00d4ff"

/-- Hex value of `COLORS.purple`. -/
def purple : String := "#a855f7"

/-- Hex value of `COLORS.pink`. -/
def pink : String := "#ec4899"

/-- Hex value of `COLORS.green`. -/
def green : String := "#10b981"

/-- Hex value of `COLORS.orange`. -/
def orange : String := "#f97316"

/-- Hex value of `COLORS.yellow`. -/
def yellow : String := "#fbbf24"

/-- Hex value of `COLORS.blue`. -/
def blue : String := "#3b82f6"

/-- Hex value of `COLORS.red`. -/
def red : String := "#ef4444"

/-- Hex value of `COLORS.teal`. -/
def teal : String := "#14b8a6"

/-- Hex value of `COLORS.indigo`. -/
def indigo : String := "#6366f1"

end COLORS

/-- The ordered ten-color palette `CHART_COLORS` of the source. -/
def CHART_COLORS : List String :=
  [COLORS.cyan, COLORS.purple, COLORS.pink, COLORS.green,
   COLORS.orange, COLORS.yellow, COLORS.blue, COLORS.red,
   COLORS.teal, COLORS.indigo]

/-- Palette access by index, cyclically: the source's
`CHART_COLORS[i % CHART_COLORS.length]`. -/
def paletteColor (i : Nat) : String :=
  CHART_COLORS.getD (i % CHART_COLORS.length) ""

/-- Boolean test that the first list is an initial segment of the second
(used to locate the first occurrence of a pattern inside a string). -/
def leadsWith : List Char → List Char → Bool
  | [], _ => true
  | _ :: _, [] => false
  | a :: as, b :: bs => a = b && leadsWith as bs

/-- Remove the leftmost occurrence of `pat` from the character list,
leaving the list unchanged when `pat` does not occur.  This is the
semantics of JavaScript `String.prototype.replace` with a string pattern
and an empty replacement. -/
def removeFirst (pat : List Char) : List Char → List Char
  | [] => []
  | c :: cs =>
      if leadsWith pat (c :: cs) then (c :: cs).drop pat.length
      else c :: removeFirst pat cs

/-- JavaScript `s.replace(pat, replacement-empty-string)` on strings:
removes the first occurrence of `pat` anywhere in `s`. -/
def replaceFirst (s pat : String) : String := ⟨removeFirst pat.data s.data⟩

/-- Boolean occurrence test: whether `pat` occurs as a contiguous
substring of `s` (character-list semantics). -/
def occursIn (s pat : String) : Bool :=
  s.data.tails.any (fun t => leadsWith pat.data t)

/-- The ethnicity label cleanup of the source:
`name.replace(white-dash-pattern, empty).replace(asian-dash-pattern, empty)` —
first occurrence of each pattern removed, in that order. -/
def cleanEthnicityLabel (s : String) : String :=
  replaceFirst (replaceFirst s "White - ") "Asian or Asian British - "

/-- JavaScript `name.split(comma)[0]`: the characters before the first
comma, or the whole string when no comma occurs. -/
def beforeFirstComma (s : String) : String :=
  ⟨s.data.takeWhile (fun c => c ≠ ',')⟩

/-- A derived chart record as built by the gender, age, ethnicity and
contact transformers: the object literal with fields `name`, `value`,
`fill`. -/
structure ChartRecord where
  name : String
  value : Nat
  fill : String
deriving DecidableEq

/-- A derived prescriber record as built by `prescriberData`: the object
literal with fields `name`, `patients`, `fill` (note `patients`, not
`value`; the prescriber bar chart reads `dataKey` `patients`). -/
structure PrescriberRecord where
  name : String
  patients : Nat
  fill : String
deriving DecidableEq

/-- A JavaScript object field value (string or numeric), used to state
object shapes as lists of named fields. -/
inductive JsVal where
  | str : String → JsVal
  | num : Nat → JsVal
deriving DecidableEq

/-- The field list of a `ChartRecord` object literal, in literal order. -/
def ChartRecord.fieldList (r : ChartRecord) : List (String × JsVal) :=
  [("name", .str r.name), ("value", .num r.value), ("fill", .str r.fill)]

/-- The field list of a `PrescriberRecord` object literal, in literal
order: its second field is named `patients`. -/
def PrescriberRecord.fieldList (r : PrescriberRecord) : List (String × JsVal) :=
  [("name", .str r.name), ("patients", .num r.patients), ("fill", .str r.fill)]

/-- JavaScript `Array.prototype.map` with the element index as second
callback argument, starting the index at `i`. -/
def mapWithIndexFrom (f : Nat → α → β) : Nat → List α → List β
  | _, [] => []
  | i, a :: as => f i a :: mapWithIndexFrom f (i + 1) as

/-- JavaScript `Array.prototype.map((element, index) => ...)`. -/
def mapWithIndex (f : Nat → α → β) (l : List α) : List β :=
  mapWithIndexFrom f 0 l

/-- The gender transformer: one record per `genderDistribution` entry, in
mapping order; fill chosen by the source's nested conditional on the
category name. -/
def genderData (d : DashboardData) : List ChartRecord :=
  d.genderDistribution.map fun p =>
    { name := p.1, value := p.2,
      fill := if p.1 = "Female" then COLORS.pink
              else if p.1 = "Male" then COLORS.cyan else COLORS.purple }

/-- The age transformer: one record per `ageGroups` entry, in mapping
order, palette-cycled by position. -/
def ageData (d : DashboardData) : List ChartRecord :=
  mapWithIndex (fun i p => { name := p.1, value := p.2, fill := paletteColor i })
    d.ageGroups

/-- The ethnicity transformer: `slice(0, 6)` of the `ethnicityDistribution`
entries, labels cleaned by `cleanEthnicityLabel`, palette-cycled. -/
def ethnicityData (d : DashboardData) : List ChartRecord :=
  mapWithIndex
    (fun i p => { name := cleanEthnicityLabel p.1, value := p.2, fill := paletteColor i })
    (d.ethnicityDistribution.take 6)

/-- The prescriber transformer: `slice(0, 5)` of the `prescriberStats`
entries, label cut at the first comma, palette-cycled; the count goes into
the `patients` field. -/
def prescriberData (d : DashboardData) : List PrescriberRecord :=
  mapWithIndex
    (fun i p => { name := beforeFirstComma p.1, patients := p.2, fill := paletteColor i })
    (d.prescriberStats.take 5)

/-- The contact transformer: the fixed three-element array literal of the
source, reading the three named counts of `contactAvailability`. -/
def contactData (d : DashboardData) : List ChartRecord :=
  [{ name := "Mobile Phone", value := d.contactAvailability.mobilePhone, fill := COLORS.cyan },
   { name := "Home Phone", value := d.contactAvailability.homePhone, fill := COLORS.purple },
   { name := "No Contact", value := d.contactAvailability.noContact, fill := COLORS.pink }]

/-- A JavaScript number: an exact rational in the finite case (an
idealization of the IEEE double, exact on the integer counts and the
short decimal arithmetic this page performs), or one of the non-finite
values. -/
inductive JsNum where
  | fin : ℚ → JsNum
  | posInf : JsNum
  | negInf : JsNum
  | nan : JsNum
deriving DecidableEq

/-- Finiteness of a JavaScript number (`Number.isFinite`). -/
def JsNum.isFinite : JsNum → Bool
  | .fin _ => true
  | _ => false

/-- JavaScript addition on `JsNum`, with IEEE non-finite propagation. -/
def jsAdd : JsNum → JsNum → JsNum
  | .fin a, .fin b => .fin (a + b)
  | .fin _, .posInf => .posInf
  | .posInf, .fin _ => .posInf
  | .fin _, .negInf => .negInf
  | .negInf, .fin _ => .negInf
  | .posInf, .posInf => .posInf
  | .negInf, .negInf => .negInf
  | _, _ => .nan

/-- JavaScript multiplication on `JsNum`, with IEEE non-finite rules
(zero times an infinity is NaN). -/
def jsMul : JsNum → JsNum → JsNum
  | .fin a, .fin b => .fin (a * b)
  | .fin a, .posInf => if a < 0 then .negInf else if 0 < a then .posInf else .nan
  | .posInf, .fin b => if b < 0 then .negInf else if 0 < b then .posInf else .nan
  | .fin a, .negInf => if a < 0 then .posInf else if 0 < a then .negInf else .nan
  | .negInf, .fin b => if b < 0 then .posInf else if 0 < b then .negInf else .nan
  | .posInf, .posInf => .posInf
  | .negInf, .negInf => .posInf
  | .posInf, .negInf => .negInf
  | .negInf, .posInf => .negInf
  | _, _ => .nan

/-- JavaScript division on `JsNum`: a nonzero finite value divided by zero
gives a signed infinity, zero by zero gives NaN (signed zeros are not
modelled; no divisor in this page is negative). -/
def jsDiv : JsNum → JsNum → JsNum
  | .fin a, .fin b =>
      if b = 0 then (if 0 < a then .posInf else if a < 0 then .negInf else .nan)
      else .fin (a / b)
  | .posInf, .fin b => if b < 0 then .negInf else .posInf
  | .negInf, .fin b => if b < 0 then .posInf else .negInf
  | .fin _, .posInf => .fin 0
  | .fin _, .negInf => .fin 0
  | _, _ => .nan

/-- Rounding of a rational to the nearest integer, ties toward positive
infinity, truncated to `Nat`: the integer `n` chosen by ECMA-262
`toFixed` for a non-negative argument. -/
def qRound (q : ℚ) : Nat := (⌊q + 1/2⌋).toNat

/-- ECMA-262 `toFixed(0)` on an exact rational. -/
def qToFixed0 (q : ℚ) : String :=
  if q < 0 then "-" ++ toString (qRound (-q)) else toString (qRound q)

/-- ECMA-262 `toFixed(1)` on an exact rational. -/
def qToFixed1 (q : ℚ) : String :=
  if q < 0 then
    "-" ++ (toString (qRound (-q * 10) / 10) ++ "." ++ toString (qRound (-q * 10) % 10))
  else toString (qRound (q * 10) / 10) ++ "." ++ toString (qRound (q * 10) % 10)

/-- JavaScript `toFixed(0)` on a `JsNum`: NaN and the infinities render as
their `ToString` forms. -/
def jsToFixed0 : JsNum → String
  | .fin q => qToFixed0 q
  | .posInf => "Infinity"
  | .negInf => "-Infinity"
  | .nan => "NaN"

/-- JavaScript `toFixed(1)` on a `JsNum`. -/
def jsToFixed1 : JsNum → String
  | .fin q => qToFixed1 q
  | .posInf => "Infinity"
  | .negInf => "-Infinity"
  | .nan => "NaN"

/-- Property lookup on an ordered mapping: the count stored under `k`, or
`none` when the key is absent (JavaScript `undefined`). -/
def getEntry (m : List (String × Nat)) (k : String) : Option Nat :=
  (m.find? (fun p => p.1 = k)).map (fun p => p.2)

/-- Property lookup coerced into arithmetic: an absent key enters
arithmetic as NaN (JavaScript `undefined` arithmetic). -/
def getNum (m : List (String × Nat)) (k : String) : JsNum :=
  match getEntry m k with
  | some v => .fin v
  | none => .nan

/-- The raw number behind `femalePercent`:
`genderDistribution.Female / totalPatients * 100`. -/
def femaleRaw (d : DashboardData) : JsNum :=
  jsMul (jsDiv (getNum d.genderDistribution "Female") (.fin d.totalPatients)) (.fin 100)

/-- The `femalePercent` display string of the source (`toFixed(1)`). -/
def femalePercent (d : DashboardData) : String := jsToFixed1 (femaleRaw d)

/-- The raw number behind `malePercent`. -/
def maleRaw (d : DashboardData) : JsNum :=
  jsMul (jsDiv (getNum d.genderDistribution "Male") (.fin d.totalPatients)) (.fin 100)

/-- The `malePercent` display string of the source (`toFixed(1)`). -/
def malePercent (d : DashboardData) : String := jsToFixed1 (maleRaw d)

/-- The raw number behind `contactRate`:
`(homePhone + mobilePhone) / totalPatients * 100`. -/
def contactRaw (d : DashboardData) : JsNum :=
  jsMul
    (jsDiv (.fin ((d.contactAvailability.homePhone : ℚ) + d.contactAvailability.mobilePhone))
      (.fin d.totalPatients))
    (.fin 100)

/-- The `contactRate` display string of the source (`toFixed(1)`). -/
def contactRate (d : DashboardData) : String := jsToFixed1 (contactRaw d)

/-- The raw number behind the aging-population insight:
`(ageGroups[60-74] + ageGroups[75-99] + ageGroups[100+]) / totalPatients * 100`. -/
def agingRaw (d : DashboardData) : JsNum :=
  jsMul
    (jsDiv
      (jsAdd (jsAdd (getNum d.ageGroups "60-74") (getNum d.ageGroups "75-99"))
        (getNum d.ageGroups "100+"))
      (.fin d.totalPatients))
    (.fin 100)

/-- The aging-population insight percentage as displayed (`toFixed(0)`). -/
def agingPercent (d : DashboardData) : String := jsToFixed0 (agingRaw d)

/-- The raw number behind the no-contact insight:
`contactAvailability.noContact / totalPatients * 100`. -/
def noContactRaw (d : DashboardData) : JsNum :=
  jsMul (jsDiv (.fin d.contactAvailability.noContact) (.fin d.totalPatients)) (.fin 100)

/-- The no-contact insight percentage as displayed (`toFixed(0)`). -/
def noContactPercent (d : DashboardData) : String := jsToFixed0 (noContactRaw d)

/-- Default chart record used as the `getD` fallback in index-wise
statements (never actually selected when the index is in range). -/
def defaultRecord : ChartRecord := ⟨"", 0, ""⟩

/-- Default prescriber record used as the `getD` fallback. -/
def defaultPrescriber : PrescriberRecord := ⟨"", 0, ""⟩

/-- Default mapping entry used as the `getD` fallback. -/
def defaultEntry : String × Nat := ("", 0)

theorem length_mapWithIndexFrom (f : Nat → α → β) (i : Nat) (l : List α) :
    (mapWithIndexFrom f i l).length = l.length := by
  induction l generalizing i with
  | nil => rfl
  | cons a as ih => simp [mapWithIndexFrom, ih]

theorem length_mapWithIndex (f : Nat → α → β) (l : List α) :
    (mapWithIndex f l).length = l.length :=
  length_mapWithIndexFrom f 0 l

theorem getD_mapWithIndexFrom (f : Nat → α → β) (i j : Nat) (l : List α) (b : β) (a : α)
    (h : j < l.length) :
    (mapWithIndexFrom f i l).getD j b = f (i + j) (l.getD j a) := by
  induction l generalizing i j with
  | nil => simp at h
  | cons x xs ih =>
      cases j with
      | zero => simp [mapWithIndexFrom]
      | succ j =>
          have hj : j < xs.length := by simpa using h
          have harith : (i + 1) + j = i + (j + 1) := by omega
          simp only [mapWithIndexFrom, List.getD_cons_succ]
          rw [ih (i + 1) j hj, harith]

theorem getD_mapWithIndex (f : Nat → α → β) (j : Nat) (l : List α) (b : β) (a : α)
    (h : j < l.length) :
    (mapWithIndex f l).getD j b = f j (l.getD j a) := by
  rw [mapWithIndex, getD_mapWithIndexFrom f 0 j l b a h, Nat.zero_add]

theorem getD_take (l : List α) (k j : Nat) (a : α) (h : j < min k l.length) :
    (l.take k).getD j a = l.getD j a := by
  have h1 : j < (l.take k).length := by simpa [List.length_take] using h
  have h2 : j < l.length := lt_of_lt_of_le h (min_le_right _ _)
  rw [List.getD_eq_getElem l a h2, List.getD_eq_getElem _ a h1, List.getElem_take]

theorem removeFirst_of_not_occurs (pat : List Char) (l : List Char)
    (h : l.tails.any (fun t => leadsWith pat t) = false) :
    removeFirst pat l = l := by
  induction l with
  | nil => rfl
  | cons c cs ih =>
      rw [List.tails_cons, List.any_cons, Bool.or_eq_false_iff] at h
      simp [removeFirst, h.1, ih h.2]

theorem replaceFirst_of_not_occurs (s pat : String) (h : occursIn s pat = false) :
    replaceFirst s pat = s := by
  have := removeFirst_of_not_occurs pat.data s.data h
  simp [replaceFirst, this]

theorem jsAdd_nan_left (x : JsNum) : jsAdd .nan x = .nan := by
  cases x <;> rfl

theorem jsAdd_nan_right (x : JsNum) : jsAdd x .nan = .nan := by
  cases x <;> rfl

theorem jsDiv_nan_left (x : JsNum) : jsDiv .nan x = .nan := by
  cases x <;> rfl

theorem jsMul_nan_left (x : JsNum) : jsMul .nan x = .nan := by
  cases x <;> rfl

theorem jsDiv_fin_fin (a b : ℚ) (hb : b ≠ 0) :
    jsDiv (.fin a) (.fin b) = .fin (a / b) := by
  simp [jsDiv, hb]

theorem qToFixed0_eq (q : ℚ) (n : Nat) (hq : ¬ q < 0) (h : ⌊q + 1/2⌋ = (n : Int)) :
    qToFixed0 q = toString n := by
  simp only [qToFixed0, qRound, if_neg hq]
  rw [h, Int.toNat_natCast]

theorem qToFixed1_eq (q : ℚ) (n : Nat) (hq : ¬ q < 0) (h : ⌊q * 10 + 1/2⌋ = (n : Int)) :
    qToFixed1 q = toString (n / 10) ++ "." ++ toString (n % 10) := by
  simp only [qToFixed1, qRound, if_neg hq]
  rw [h, Int.toNat_natCast]

theorem leadsWith_append (p r : List Char) : leadsWith p (p ++ r) = true := by
  induction p with
  | nil => rfl
  | cons a as ih => simp [leadsWith, ih]

theorem removeFirst_append (pat r : List Char) : removeFirst pat (pat ++ r) = r := by
  match pat, r with
  | [], [] => rfl
  | [], c :: cs => simp [removeFirst, leadsWith]
  | p :: ps, r =>
      rw [List.cons_append, removeFirst]
      rw [show leadsWith (p :: ps) (p :: (ps ++ r)) = true from leadsWith_append (p :: ps) r]
      simp [List.drop_left]

theorem replaceFirst_append (pat t : String) : replaceFirst (pat ++ t) pat = t := by
  show (⟨removeFirst pat.data (pat ++ t).data⟩ : String) = t
  rw [String.data_append, removeFirst_append]

theorem getNum_eq_fin (m : List (String × Nat)) (k : String) (v : Nat)
    (h : getEntry m k = some v) : getNum m k = .fin v := by
  simp [getNum, h]

theorem getNum_eq_nan (m : List (String × Nat)) (k : String)
    (h : getEntry m k = none) : getNum m k = .nan := by
  simp [getNum, h]

/-- Sample snapshot using the concrete figures quoted in the spec's
testable properties (1000 patients, Female 520 and Male 480, the three
fixed age buckets, mobile 600 and home 150 and no-contact 250). -/
def sampleMain : DashboardData :=
  { totalPatients := 1000,
    genderDistribution := [("Female", 520), ("Male", 480)],
    ethnicityDistribution :=
      [("White - British", 700), ("Asian or Asian British - Indian", 120),
       ("Irish", 50), ("Black African", 40), ("Chinese", 30),
       ("Mixed", 20), ("Other", 10)],
    ageGroups := [("60-74", 200), ("75-99", 100), ("100+", 10)],
    prescriberStats := [("Smith, John", 42), ("Jones", 30)],
    surgeryStats := [("Rother House", 710)],
    contactAvailability := { homePhone := 150, mobilePhone := 600, noContact := 250 } }

/-- Sample snapshot whose single gender label is neither Female nor Male. -/
def sampleOtherGender : DashboardData :=
  { totalPatients := 10,
    genderDistribution := [("Nonbinary", 7)],
    ethnicityDistribution := [],
    ageGroups := [],
    prescriberStats := [],
    surgeryStats := [],
    contactAvailability := { homePhone := 0, mobilePhone := 0, noContact := 0 } }

/-- Sample snapshot whose ethnicity label contains a cleanup pattern that
is not a prefix. -/
def sampleNonPrefixLabel : DashboardData :=
  { totalPatients := 100,
    genderDistribution := [],
    ethnicityDistribution := [("Other White - background", 80)],
    ageGroups := [],
    prescriberStats := [],
    surgeryStats := [],
    contactAvailability := { homePhone := 0, mobilePhone := 0, noContact := 0 } }

/-- Sample snapshot with zero total patients. -/
def sampleZeroTotal : DashboardData :=
  { totalPatients := 0,
    genderDistribution := [("Female", 5)],
    ethnicityDistribution := [],
    ageGroups := [("60-74", 1)],
    prescriberStats := [],
    surgeryStats := [],
    contactAvailability := { homePhone := 2, mobilePhone := 3, noContact := 4 } }

/-- Sample snapshot whose age buckets are missing two of the three fixed
keys the aging insight reads. -/
def sampleMissingAge : DashboardData :=
  { totalPatients := 1000,
    genderDistribution := [("Female", 520), ("Male", 480)],
    ethnicityDistribution := [],
    ageGroups := [("60-74", 200)],
    prescriberStats := [],
    surgeryStats := [],
    contactAvailability := { homePhone := 150, mobilePhone := 600, noContact := 250 } }

/-- C1 counterexample: in `prescriberData` the count field of each record
is named `patients`, not `value`, so the records do not have the claimed
ChartRecord shape name/value/fill.  Shown on a concrete snapshot whose
first prescriber key is a comma-separated name. -/
theorem prescriber_shape_counterexample :
    ((prescriberData sampleMain).getD 0 defaultPrescriber).fieldList.map Prod.fst
        = ["name", "patients", "fill"] ∧
    ¬ ((prescriberData sampleMain).getD 0 defaultPrescriber).fieldList.map Prod.fst
        = ["name", "value", "fill"] := by
  exact ⟨by decide, by decide⟩

/-- C1 (amended): the prescriber record sequence has length
`min 5 (size prescriberStats)` and consists of the first 5 entries of
`prescriberStats` in mapping order; each record's label is the substring
of the category key before its first comma (the whole key when no comma
is present); each record carries the entry's count in its `patients`
field (not a `value` field) and the palette color of its index. -/
theorem prescriber_records_amended (d : DashboardData) :
    (prescriberData d).length = min 5 d.prescriberStats.length ∧
    ∀ i, i < (prescriberData d).length →
      ((prescriberData d).getD i defaultPrescriber).name
          = beforeFirstComma (d.prescriberStats.getD i defaultEntry).1 ∧
      ((prescriberData d).getD i defaultPrescriber).patients
          = (d.prescriberStats.getD i defaultEntry).2 ∧
      ((prescriberData d).getD i defaultPrescriber).fill = paletteColor i := by
  have hlen : (prescriberData d).length = min 5 d.prescriberStats.length := by
    simp [prescriberData, length_mapWithIndex, List.length_take]
  refine ⟨hlen, ?_⟩
  intro i hi
  have hi' : i < min 5 d.prescriberStats.length := hlen ▸ hi
  have htake : i < (d.prescriberStats.take 5).length := by
    simpa [List.length_take] using hi'
  rw [prescriberData, getD_mapWithIndex _ i _ defaultPrescriber defaultEntry htake,
    getD_take _ _ _ _ hi']
  exact ⟨rfl, rfl, rfl⟩

/-- C1 witness: on the sample snapshot the two prescriber records keep
mapping order, the first label is cut at the comma, and the count sits in
the `patients` field. -/
theorem prescriber_records_amended_witness :
    (prescriberData sampleMain).length = 2 ∧
    ((prescriberData sampleMain).getD 0 defaultPrescriber).name = "Smith" ∧
    ((prescriberData sampleMain).getD 0 defaultPrescriber).patients = 42 ∧
    ((prescriberData sampleMain).getD 0 defaultPrescriber).fill = COLORS.cyan := by
  obtain ⟨hlen, hrec⟩ := prescriber_records_amended sampleMain
  obtain ⟨h1, h2, h3⟩ := hrec 0 (by decide)
  exact ⟨hlen.trans (by decide), h1.trans (by decide), h2.trans (by decide),
    h3.trans (by decide)⟩

/-- C2 counterexample: the cleanup pattern occurs in the concrete label
without being a prefix of it, yet the derived ethnicity record's label is
changed — JavaScript `replace` removes the first occurrence anywhere, not
only a prefix. -/
theorem ethnicity_label_counterexample :
    leadsWith ("White - ".data) ("Other White - background".data) = false ∧
    occursIn "Other White - background" "White - " = true ∧
    ((ethnicityData sampleNonPrefixLabel).getD 0 defaultRecord).name = "Other background" ∧
    ¬ ((ethnicityData sampleNonPrefixLabel).getD 0 defaultRecord).name
        = "Other White - background" := by
  exact ⟨by decide, by decide, by decide, by decide⟩

/-- C2 (amended): the ethnicity record sequence has length
`min 6 (size ethnicityDistribution)` and consists of the first 6 entries
of `ethnicityDistribution` in mapping order (no value-based sort); label
cleanup removes the first occurrence anywhere of the literal
`White - ` and then of `Asian or Asian British - ` (so it strips them as
prefixes when present as prefixes, and also alters labels containing an
occurrence elsewhere); a label containing neither pattern is unchanged. -/
theorem ethnicity_records_amended (d : DashboardData) :
    ((ethnicityData d).length = min 6 d.ethnicityDistribution.length ∧
     ∀ i, i < (ethnicityData d).length →
       ((ethnicityData d).getD i defaultRecord).name
           = cleanEthnicityLabel (d.ethnicityDistribution.getD i defaultEntry).1 ∧
       ((ethnicityData d).getD i defaultRecord).value
           = (d.ethnicityDistribution.getD i defaultEntry).2 ∧
       ((ethnicityData d).getD i defaultRecord).fill = paletteColor i) ∧
    (∀ t : String, cleanEthnicityLabel ("White - " ++ t)
        = replaceFirst t "Asian or Asian British - ") ∧
    (∀ s : String, occursIn s "White - " = false →
        occursIn s "Asian or Asian British - " = false → cleanEthnicityLabel s = s) := by
  refine ⟨⟨?_, ?_⟩, ?_, ?_⟩
  · simp [ethnicityData, length_mapWithIndex, List.length_take]
  · intro i hi
    have hlen : (ethnicityData d).length = min 6 d.ethnicityDistribution.length := by
      simp [ethnicityData, length_mapWithIndex, List.length_take]
    have hi' : i < min 6 d.ethnicityDistribution.length := hlen ▸ hi
    have htake : i < (d.ethnicityDistribution.take 6).length := by
      simpa [List.length_take] using hi'
    rw [ethnicityData, getD_mapWithIndex _ i _ defaultRecord defaultEntry htake,
      getD_take _ _ _ _ hi']
    exact ⟨rfl, rfl, rfl⟩
  · intro t
    show replaceFirst (replaceFirst ("White - " ++ t) "White - ") "Asian or Asian British - "
        = replaceFirst t "Asian or Asian British - "
    rw [replaceFirst_append]
  · intro s h1 h2
    show replaceFirst (replaceFirst s "White - ") "Asian or Asian British - " = s
    rw [replaceFirst_of_not_occurs s "White - " h1,
      replaceFirst_of_not_occurs s "Asian or Asian British - " h2]

/-- C2 witness: on the sample snapshot the seven-entry ethnicity mapping
yields six records, the first record strips the `White - ` prefix of the
first entry in mapping order, and a pattern-free label is unchanged. -/
theorem ethnicity_records_amended_witness :
    (ethnicityData sampleMain).length = 6 ∧
    ((ethnicityData sampleMain).getD 0 defaultRecord).name = "British" ∧
    ((ethnicityData sampleMain).getD 0 defaultRecord).value = 700 ∧
    ((ethnicityData sampleMain).getD 0 defaultRecord).fill = COLORS.cyan ∧
    cleanEthnicityLabel "Irish" = "Irish" := by
  obtain ⟨⟨hlen, hrec⟩, _, hunch⟩ := ethnicity_records_amended sampleMain
  obtain ⟨h1, h2, h3⟩ := hrec 0 (by decide)
  exact ⟨hlen.trans (by decide), h1.trans (by decide), h2.trans (by decide),
    h3.trans (by decide), hunch "Irish" (by decide) (by decide)⟩

/-- C3 counterexample: the label cleanup is not idempotent — on a label
containing the pattern twice, one application removes only the first
occurrence and a second application removes another. -/
theorem clean_label_not_idempotent :
    cleanEthnicityLabel "White - White - British" = "White - British" ∧
    cleanEthnicityLabel (cleanEthnicityLabel "White - White - British") = "British" ∧
    ¬ cleanEthnicityLabel (cleanEthnicityLabel "White - White - British")
        = cleanEthnicityLabel "White - White - British" := by
  exact ⟨by decide, by decide, by decide⟩

/-- C3 (amended): the label cleanup is idempotent on every label whose
once-cleaned form contains no further occurrence of either pattern (in
particular on labels containing each pattern at most once as a prefix);
it is not idempotent in general. -/
theorem clean_label_idempotent_amended (s : String)
    (h1 : occursIn (cleanEthnicityLabel s) "White - " = false)
    (h2 : occursIn (cleanEthnicityLabel s) "Asian or Asian British - " = false) :
    cleanEthnicityLabel (cleanEthnicityLabel s) = cleanEthnicityLabel s := by
  show replaceFirst (replaceFirst (cleanEthnicityLabel s) "White - ")
      "Asian or Asian British - " = cleanEthnicityLabel s
  rw [replaceFirst_of_not_occurs _ _ h1, replaceFirst_of_not_occurs _ _ h2]

/-- C3 witness: idempotence holds concretely on the label consisting of
the `White - ` prefix followed by a pattern-free remainder. -/
theorem clean_label_idempotent_witness :
    cleanEthnicityLabel (cleanEthnicityLabel "White - British")
        = cleanEthnicityLabel "White - British" :=
  clean_label_idempotent_amended "White - British" (by decide) (by decide)

/-- C4: for every snapshot the contact record sequence has exactly 3
records in the fixed order Mobile Phone, Home Phone, No Contact, with the
fixed colors cyan, purple and pink, and values taken directly from the
three named counts of `contactAvailability` (which, being a fixed record,
admits no input reordering). -/
theorem contact_records_spec (d : DashboardData) :
    (contactData d).length = 3 ∧
    (contactData d).map (fun r => r.name) = ["Mobile Phone", "Home Phone", "No Contact"] ∧
    (contactData d).map (fun r => r.fill) = [COLORS.cyan, COLORS.purple, COLORS.pink] ∧
    (contactData d).map (fun r => r.value)
        = [d.contactAvailability.mobilePhone, d.contactAvailability.homePhone,
           d.contactAvailability.noContact] :=
  ⟨rfl, rfl, rfl, rfl⟩

/-- C5: for every snapshot the gender record sequence has one record per
`genderDistribution` entry, in mapping order, with the entry's count as
value; the fill depends only on the category label — Female maps to pink,
Male to cyan, and any other label to purple. -/
theorem gender_records_spec (d : DashboardData) :
    (genderData d).length = d.genderDistribution.length ∧
    ∀ i, i < (genderData d).length →
      ((genderData d).getD i defaultRecord).name
          = (d.genderDistribution.getD i defaultEntry).1 ∧
      ((genderData d).getD i defaultRecord).value
          = (d.genderDistribution.getD i defaultEntry).2 ∧
      ((genderData d).getD i defaultRecord).fill
          = (if (d.genderDistribution.getD i defaultEntry).1 = "Female" then COLORS.pink
             else if (d.genderDistribution.getD i defaultEntry).1 = "Male" then COLORS.cyan
             else COLORS.purple) := by
  refine ⟨by simp [genderData], ?_⟩
  intro i hi
  have hl : i < d.genderDistribution.length := by simpa [genderData] using hi
  have hm : i < (genderData d).length := hi
  rw [List.getD_eq_getElem _ defaultRecord hm, List.getD_eq_getElem _ defaultEntry hl]
  simp only [genderData, List.getElem_map]
  exact ⟨trivial, trivial, trivial⟩

/-- C5 witness: on a sample whose single gender label is neither Female
nor Male, the record keeps the label and count and is colored purple; on
the main sample the Female record is pink. -/
theorem gender_records_spec_witness :
    ((genderData sampleOtherGender).getD 0 defaultRecord).name = "Nonbinary" ∧
    ((genderData sampleOtherGender).getD 0 defaultRecord).value = 7 ∧
    ((genderData sampleOtherGender).getD 0 defaultRecord).fill = COLORS.purple ∧
    ((genderData sampleMain).getD 0 defaultRecord).fill = COLORS.pink := by
  obtain ⟨h1, h2, h3⟩ := (gender_records_spec sampleOtherGender).2 0 (by decide)
  obtain ⟨_, _, h4⟩ := (gender_records_spec sampleMain).2 0 (by decide)
  exact ⟨h1.trans (by decide), h2.trans (by decide), h3.trans (by decide),
    h4.trans (by decide)⟩

/-- C6: for every snapshot the sum of the gender record values equals the
sum of the `genderDistribution` counts — the gender transformer filters
nothing. -/
theorem gender_sum_preserved (d : DashboardData) :
    ((genderData d).map (fun r => r.value)).sum
        = (d.genderDistribution.map (fun p => p.2)).sum := by
  rw [genderData, List.map_map]
  rfl

/-- C7: with both gender keys present and a positive patient total, the
three stat-card percentages are exactly the claimed formulas rounded to
one decimal place (count divided by total, times 100; home plus mobile
for the contact rate). -/
theorem percent_formulas (d : DashboardData) (f m : Nat)
    (hf : getEntry d.genderDistribution "Female" = some f)
    (hm : getEntry d.genderDistribution "Male" = some m)
    (ht : 0 < d.totalPatients) :
    femalePercent d = qToFixed1 ((f : ℚ) / d.totalPatients * 100) ∧
    malePercent d = qToFixed1 ((m : ℚ) / d.totalPatients * 100) ∧
    contactRate d = qToFixed1 (((d.contactAvailability.homePhone : ℚ)
        + d.contactAvailability.mobilePhone) / d.totalPatients * 100) := by
  have h0 : (d.totalPatients : ℚ) ≠ 0 := Nat.cast_ne_zero.mpr (Nat.pos_iff_ne_zero.mp ht)
  refine ⟨?_, ?_, ?_⟩
  · simp only [femalePercent, femaleRaw, getNum_eq_fin _ _ _ hf, jsDiv_fin_fin _ _ h0]
    rfl
  · simp only [malePercent, maleRaw, getNum_eq_fin _ _ _ hm, jsDiv_fin_fin _ _ h0]
    rfl
  · simp only [contactRate, contactRaw, jsDiv_fin_fin _ _ h0]
    rfl

/-- C7 witness: the spec's concrete instances — 520 and 480 of 1000
render as 52.0 and 48.0, and home 150 plus mobile 600 of 1000 render as
a 75.0 contact rate. -/
theorem percent_formulas_witness :
    femalePercent sampleMain = "52.0" ∧ malePercent sampleMain = "48.0" ∧
    contactRate sampleMain = "75.0" := by
  obtain ⟨h1, h2, h3⟩ :=
    percent_formulas sampleMain 520 480 (by decide) (by decide) (by decide)
  refine ⟨h1.trans ?_, h2.trans ?_, h3.trans ?_⟩
  · rw [qToFixed1_eq _ 520 (by norm_num [sampleMain]) (by norm_num [sampleMain])]
    decide
  · rw [qToFixed1_eq _ 480 (by norm_num [sampleMain]) (by norm_num [sampleMain])]
    decide
  · rw [qToFixed1_eq _ 750 (by norm_num [sampleMain]) (by norm_num [sampleMain])]
    decide

/-- C8: with the three fixed age-bucket keys present and a positive
total, the aging-population insight is their summed counts over the total
times 100 rounded to zero decimals; with any of the three keys absent the
arithmetic is NaN and the rendered value is the non-numeric string NaN. -/
theorem aging_insight_spec (d : DashboardData) :
    (∀ a b c : Nat, getEntry d.ageGroups "60-74" = some a →
      getEntry d.ageGroups "75-99" = some b →
      getEntry d.ageGroups "100+" = some c →
      0 < d.totalPatients →
      agingPercent d = qToFixed0 (((a : ℚ) + b + c) / d.totalPatients * 100)) ∧
    ((getEntry d.ageGroups "60-74" = none ∨ getEntry d.ageGroups "75-99" = none ∨
        getEntry d.ageGroups "100+" = none) →
      agingPercent d = "NaN") := by
  constructor
  · intro a b c ha hb hc ht
    have h0 : (d.totalPatients : ℚ) ≠ 0 := Nat.cast_ne_zero.mpr (Nat.pos_iff_ne_zero.mp ht)
    simp only [agingPercent, agingRaw, getNum_eq_fin _ _ _ ha, getNum_eq_fin _ _ _ hb,
      getNum_eq_fin _ _ _ hc]
    rw [show jsAdd (jsAdd (JsNum.fin (a : ℚ)) (JsNum.fin (b : ℚ))) (JsNum.fin (c : ℚ))
        = JsNum.fin ((a : ℚ) + b + c) from rfl, jsDiv_fin_fin _ _ h0]
    rfl
  · intro habs
    rcases habs with h | h | h <;>
      simp [agingPercent, agingRaw, getNum_eq_nan _ _ h, jsAdd_nan_left, jsAdd_nan_right,
        jsDiv_nan_left, jsMul_nan_left, jsToFixed0]

/-- C8 witness: the spec's concrete instance — buckets 200, 100 and 10 of
1000 patients render as 31 — and a snapshot missing the 75-99 bucket
renders NaN. -/
theorem aging_insight_witness :
    agingPercent sampleMain = "31" ∧ agingPercent sampleMissingAge = "NaN" := by
  constructor
  · have h := (aging_insight_spec sampleMain).1 200 100 10 (by decide) (by decide)
      (by decide) (by decide)
    refine h.trans ?_
    rw [qToFixed0_eq _ 31 (by norm_num [sampleMain]) (by norm_num [sampleMain])]
    decide
  · exact (aging_insight_spec sampleMissingAge).2 (Or.inr (Or.inl (by decide)))

theorem jsNum_div_zero_mul_hundred (x : JsNum)
    (hx : x = .nan ∨ ∃ q : ℚ, 0 ≤ q ∧ x = .fin q) :
    jsMul (jsDiv x (.fin 0)) (.fin 100) = .nan ∨
    jsMul (jsDiv x (.fin 0)) (.fin 100) = .posInf := by
  rcases hx with h | ⟨q, hq, h⟩
  · subst h; left; rfl
  · subst h
    rcases lt_or_eq_of_le hq with hpos | hzero
    · right
      have hdiv : jsDiv (JsNum.fin q) (JsNum.fin 0) = JsNum.posInf := by
        simp [jsDiv, hpos]
      rw [hdiv]
      norm_num [jsMul]
    · left
      have hdiv : jsDiv (JsNum.fin q) (JsNum.fin 0) = JsNum.nan := by
        simp [jsDiv, ← hzero]
      rw [hdiv]; rfl

theorem nanOrNonneg_getNum (m : List (String × Nat)) (k : String) :
    getNum m k = .nan ∨ ∃ q : ℚ, 0 ≤ q ∧ getNum m k = .fin q := by
  cases hE : getEntry m k with
  | none => exact Or.inl (getNum_eq_nan m k hE)
  | some v => exact Or.inr ⟨v, Nat.cast_nonneg v, getNum_eq_fin m k v hE⟩

theorem nanOrNonneg_jsAdd {x y : JsNum}
    (hx : x = .nan ∨ ∃ q : ℚ, 0 ≤ q ∧ x = .fin q)
    (hy : y = .nan ∨ ∃ q : ℚ, 0 ≤ q ∧ y = .fin q) :
    jsAdd x y = .nan ∨ ∃ q : ℚ, 0 ≤ q ∧ jsAdd x y = .fin q := by
  rcases hx with h | ⟨a, ha, h⟩ <;> rcases hy with h2 | ⟨b, hb, h2⟩ <;> subst h <;> subst h2
  · exact Or.inl rfl
  · exact Or.inl rfl
  · exact Or.inl rfl
  · exact Or.inr ⟨a + b, by positivity, rfl⟩

theorem raw_shape (x : JsNum)
    (hx : x = .nan ∨ ∃ q : ℚ, 0 ≤ q ∧ x = .fin q) :
    (jsMul (jsDiv x (.fin 0)) (.fin 100)).isFinite = false ∧
    (jsToFixed1 (jsMul (jsDiv x (.fin 0)) (.fin 100)) = "NaN" ∨
     jsToFixed1 (jsMul (jsDiv x (.fin 0)) (.fin 100)) = "Infinity") ∧
    (jsToFixed0 (jsMul (jsDiv x (.fin 0)) (.fin 100)) = "NaN" ∨
     jsToFixed0 (jsMul (jsDiv x (.fin 0)) (.fin 100)) = "Infinity") := by
  rcases jsNum_div_zero_mul_hundred x hx with h | h <;> rw [h]
  · exact ⟨rfl, Or.inl rfl, Or.inl rfl⟩
  · exact ⟨rfl, Or.inr rfl, Or.inr rfl⟩

/-- C9: with zero total patients every raw percentage value (female,
male, contact rate, aging insight, no-contact insight) is non-finite, and
each derivation still evaluates to a display string (NaN or Infinity) —
the embedded transformers and derivations are total functions, nothing
crashes. -/
theorem zero_total_patients_safe (d : DashboardData) (h : d.totalPatients = 0) :
    ((femaleRaw d).isFinite = false ∧
      (femalePercent d = "NaN" ∨ femalePercent d = "Infinity")) ∧
    ((maleRaw d).isFinite = false ∧
      (malePercent d = "NaN" ∨ malePercent d = "Infinity")) ∧
    ((contactRaw d).isFinite = false ∧
      (contactRate d = "NaN" ∨ contactRate d = "Infinity")) ∧
    ((agingRaw d).isFinite = false ∧
      (agingPercent d = "NaN" ∨ agingPercent d = "Infinity")) ∧
    ((noContactRaw d).isFinite = false ∧
      (noContactPercent d = "NaN" ∨ noContactPercent d = "Infinity")) := by
  have hF := raw_shape _ (nanOrNonneg_getNum d.genderDistribution "Female")
  have hM := raw_shape _ (nanOrNonneg_getNum d.genderDistribution "Male")
  have hC := raw_shape (JsNum.fin ((d.contactAvailability.homePhone : ℚ)
      + d.contactAvailability.mobilePhone)) (Or.inr ⟨_, by positivity, rfl⟩)
  have hA := raw_shape _ (nanOrNonneg_jsAdd (nanOrNonneg_jsAdd
      (nanOrNonneg_getNum d.ageGroups "60-74") (nanOrNonneg_getNum d.ageGroups "75-99"))
      (nanOrNonneg_getNum d.ageGroups "100+"))
  have hN := raw_shape (JsNum.fin (d.contactAvailability.noContact : ℚ))
      (Or.inr ⟨_, by positivity, rfl⟩)
  simp only [femaleRaw, femalePercent, maleRaw, malePercent, contactRaw, contactRate,
    agingRaw, agingPercent, noContactRaw, noContactPercent, h, Nat.cast_zero]
  exact ⟨⟨hF.1, hF.2.1⟩, ⟨hM.1, hM.2.1⟩, ⟨hC.1, hC.2.1⟩, ⟨hA.1, hA.2.2⟩, ⟨hN.1, hN.2.2⟩⟩

/-- C9 witness: the zero-total sample snapshot has a non-finite female
percentage that still renders as a string. -/
theorem zero_total_patients_safe_witness :
    (femaleRaw sampleZeroTotal).isFinite = false ∧
    (femalePercent sampleZeroTotal = "NaN" ∨ femalePercent sampleZeroTotal = "Infinity") :=
  (zero_total_patients_safe sampleZeroTotal rfl).1

/-- C10: no rendered output depends on `surgeryStats` — replacing that
field with any other mapping (i.e. taking any second snapshot differing
only in `surgeryStats`) leaves every derived chart record sequence and
every derived percentage unchanged. -/
theorem surgery_stats_unused (d : DashboardData) (m : List (String × Nat)) :
    genderData { d with surgeryStats := m } = genderData d ∧
    ageData { d with surgeryStats := m } = ageData d ∧
    ethnicityData { d with surgeryStats := m } = ethnicityData d ∧
    prescriberData { d with surgeryStats := m } = prescriberData d ∧
    contactData { d with surgeryStats := m } = contactData d ∧
    femalePercent { d with surgeryStats := m } = femalePercent d ∧
    malePercent { d with surgeryStats := m } = malePercent d ∧
    contactRate { d with surgeryStats := m } = contactRate d ∧
    agingPercent { d with surgeryStats := m } = agingPercent d ∧
    noContactPercent { d with surgeryStats := m } = noContactPercent d :=
  ⟨rfl, rfl, rfl, rfl, rfl, rfl, rfl, rfl, rfl, rfl⟩
